import Mathlib

/-!
Shallow embedding of the session/turn persistence and conversation-context
module of `src/mnemosyne_groq.py`.

Modelling conventions:
* the SQLite database is a `DB` value: the `sessions` and `conversation_turns`
  tables are lists of rows in insertion order, and the AUTOINCREMENT id of the
  `sessions` table is `DB.nextSessionId` (SQLite row ids are handed out in
  increasing order, so `ORDER BY id ASC` over `conversation_turns` is exactly
  list order, and appending to the list is exactly an `INSERT`);
* `datetime.datetime.now().isoformat()` is modelled by an explicit `now : String`
  argument to each operation that stamps a row;
* `json.dumps(metadata or {})` is modelled by `json_dumps_meta`: the optional
  already-serialized metadata text, defaulting to the serialization "\x7b\x7d"
  of the empty dict;
* one network exchange of `requests.post` is modelled by a `RequestOutcome`
  value (an HTTP response with a status code, the first choice's message
  content and the raw body text, or a timeout, or another raised exception);
* Python's slice `history[-max_turns:]` is modelled by `py_slice_last`,
  including the `-0 == 0` corner case in which the slice is the whole list.
-/

namespace Mnemosyne

/-- A row of the `sessions` table (columns of `init_db`, line 21). -/
structure SessionRow where
  id : Nat
  started_at : String
  ended_at : Option String
  session_type : String
  patient_id : String
  summary : Option String
  deriving DecidableEq

/-- A row of the `conversation_turns` table (columns of `init_db`, line 30). -/
structure TurnRow where
  session_id : Nat
  timestamp : String
  speaker : String
  message : String
  message_type : String
  metadata : String
  deriving DecidableEq

/-- The persistent store: both tables plus the next AUTOINCREMENT session id. -/
structure DB where
  sessions : List SessionRow
  turns : List TurnRow
  nextSessionId : Nat
  deriving DecidableEq

/-- A freshly initialized database: both tables empty, ids start at 1. -/
def emptyDB : DB := ⟨[], [], 1⟩

/-- `json.dumps(metadata or \x7b\x7d)` over an optional pre-serialized metadata text. -/
def json_dumps_meta (metadata : Option String) : String :=
  metadata.getD "\x7b\x7d"

/-- Python's `str.strip()`: drop leading and trailing whitespace.  (Defined by
structural recursion over the character list so that concrete instances
evaluate inside the kernel.) -/
def py_strip (s : String) : String :=
  ⟨((s.data.dropWhile Char.isWhitespace).reverse.dropWhile Char.isWhitespace).reverse⟩

/-- Python's `str.lower()` over the character list. -/
def py_lower (s : String) : String :=
  ⟨s.data.map Char.toLower⟩

/-- Whether the second character list occurs at the head of the first. -/
def chars_start_with : List Char → List Char → Bool
  | _, [] => true
  | [], _ :: _ => false
  | a :: as, b :: bs => a == b && chars_start_with as bs

/-- Whether the second character list occurs anywhere inside the first. -/
def chars_have_sublist : List Char → List Char → Bool
  | [], pat => pat.isEmpty
  | a :: as, pat => chars_start_with (a :: as) pat || chars_have_sublist as pat

/-- Python's substring test `sub in s`. -/
def py_contains (s sub : String) : Bool :=
  chars_have_sublist s.data sub.data

/-- `create_session` (line 54): inserts a Session row with `started_at = now`,
`ended_at`/`summary` NULL, and returns the new AUTOINCREMENT id. -/
def create_session (db : DB) (now : String) (session_type : String)
    (patient_id : String) : DB × Nat :=
  let sid := db.nextSessionId
  ({ sessions := db.sessions ++
      [{ id := sid, started_at := now, ended_at := none,
         session_type := session_type, patient_id := patient_id, summary := none }],
     turns := db.turns,
     nextSessionId := sid + 1 }, sid)

/-- `end_session` (line 64): `UPDATE sessions SET ended_at = now, summary = ?
WHERE id = ?`.  Rows whose id differs are untouched; if no row matches, the
update affects nothing and no error is signalled. -/
def end_session (db : DB) (now : String) (session_id : Nat) (summary : String) : DB :=
  { db with
    sessions := db.sessions.map fun s =>
      if s.id = session_id then { s with ended_at := some now, summary := some summary }
      else s }

/-- `save_turn` (line 72): unconditionally inserts one `conversation_turns` row
with `timestamp = now`; the speaker string is not inspected. -/
def save_turn (db : DB) (now : String) (session_id : Nat) (speaker : String)
    (message : String) (message_type : String) (metadata : Option String) : DB :=
  { db with
    turns := db.turns ++
      [{ session_id := session_id, timestamp := now, speaker := speaker,
         message := message, message_type := message_type,
         metadata := json_dumps_meta metadata }] }

/-- One record of `get_session_history`: the SELECTed columns
`timestamp, speaker, message, message_type, metadata` (line 83). -/
structure HistEntry where
  timestamp : String
  speaker : String
  message : String
  message_type : String
  metadata : String
  deriving DecidableEq

/-- Projection of a turn row onto the SELECTed columns. -/
def entry_of_row (t : TurnRow) : HistEntry :=
  ⟨t.timestamp, t.speaker, t.message, t.message_type, t.metadata⟩

/-- `get_session_history` (line 80): all turns of the session,
`ORDER BY id ASC`, i.e. in insertion order. -/
def get_session_history (db : DB) (session_id : Nat) : List HistEntry :=
  (db.turns.filter fun t => t.session_id == session_id).map entry_of_row

/-- One OpenAI-format chat message `⦃role, content⦄`. -/
structure ChatMsg where
  role : String
  content : String
  deriving DecidableEq

/-- Python slicing `h[-n:]` for a natural `n`: the last `n` elements, except
that `-0 == 0` makes `h[-0:]` the WHOLE list. -/
def py_slice_last (h : List HistEntry) (n : Nat) : List HistEntry :=
  if n = 0 then h else h.drop (h.length - n)

/-- The per-turn branch of `build_conversation_context` (lines 207-211):
PATIENT becomes a "user" message, THERAPIST an "assistant" message, and any
other speaker (in particular SYSTEM) produces nothing. -/
def context_msg (turn : HistEntry) : Option ChatMsg :=
  if turn.speaker = "PATIENT" then some { role := "user", content := turn.message }
  else if turn.speaker = "THERAPIST" then some { role := "assistant", content := turn.message }
  else none

/-- `build_conversation_context` (line 202, default `max_turns = 10`):
`recent = history[-max_turns:] if len(history) > max_turns else history`,
then the speaker-to-role mapping over `recent`. -/
def build_conversation_context (history : List HistEntry) (max_turns : Nat) : List ChatMsg :=
  let recent := if history.length > max_turns then py_slice_last history max_turns else history
  recent.filterMap context_msg

/-- An HTTP response from the chat-completion endpoint:
`status_code`, the extracted `result.choices[0].message.content` (for 200
responses whose body parses), and the raw `response.text`. -/
structure HttpResponse where
  status_code : Nat
  first_choice_content : String
  text : String
  deriving DecidableEq

/-- Outcome of one `requests.post` exchange: a response, a
`requests.exceptions.Timeout`, or any other raised exception with its text. -/
inductive RequestOutcome where
  | response (r : HttpResponse)
  | timeout
  | failure (detail : String)
  deriving DecidableEq

/-- The six-character prefix every error placeholder string starts with in the
source file (the file's literal bytes, a double-encoded warning sign). -/
def warn_sign : String := "‚ö†Ô∏è"

/-- Placeholder returned when no API key is configured (line 224). -/
def api_key_missing_msg : String :=
  warn_sign ++ " API Key not configured. Please add your Groq API key in the sidebar."

/-- Placeholder for HTTP 401 (line 261). -/
def invalid_key_msg : String :=
  warn_sign ++ " Invalid API Key. Please check your Groq API key."

/-- Placeholder for HTTP 429 (line 263). -/
def rate_limit_msg : String :=
  warn_sign ++ " Rate limit exceeded. Please wait a moment and try again."

/-- Placeholder for any other non-200 status (line 265), carrying the status
code and the response body. -/
def api_error_msg (status : Nat) (text : String) : String :=
  warn_sign ++ " API Error (Status " ++ toString status ++ "): " ++ text

/-- Placeholder for a network timeout (line 268). -/
def timeout_msg : String :=
  warn_sign ++ " Request timeout. Please try again."

/-- Placeholder for any other raised exception (line 270). -/
def transport_error_msg (detail : String) : String :=
  warn_sign ++ " Error: " ++ detail

/-- `generate_ai_response` (line 215), restricted to its api-key guard
(line 223) and outcome classification (lines 257-270).  The prompt assembly
and the blocking HTTP call themselves (lines 226-255) are modelled by the
`outcome` argument; no claim depends on the prompt text. -/
def generate_ai_response (groq_api_key : String) (outcome : RequestOutcome) : String :=
  if groq_api_key = "" then api_key_missing_msg
  else
    match outcome with
    | .response r =>
        if r.status_code = 200 then py_strip r.first_choice_content
        else if r.status_code = 401 then invalid_key_msg
        else if r.status_code = 429 then rate_limit_msg
        else api_error_msg r.status_code r.text
    | .timeout => timeout_msg
    | .failure detail => transport_error_msg detail

/-- `MODEL_NAME` (line 13). -/
def MODEL_NAME : String := "llama-3.1-70b-versatile"

/-- `max_tokens` of the therapist-reply request (line 250). -/
def ai_response_max_tokens : Nat := 1000

/-- The JSON body `⦃model, messages, temperature, max_tokens⦄` of one
chat-completion request. -/
structure GroqRequest where
  model : String
  messages : List ChatMsg
  temperature : Rat
  max_tokens : Nat
  deriving DecidableEq

/-- The transcript built by `generate_session_summary` (line 282):
`"\n".join(f"⦃speaker⦄: ⦃message⦄")` over the PATIENT/THERAPIST turns. -/
def conversation_text (history : List HistEntry) : String :=
  String.intercalate "\n"
    ((history.filter fun t => t.speaker == "PATIENT" || t.speaker == "THERAPIST").map
      fun t => t.speaker ++ ": " ++ t.message)

/-- The user prompt of the summary request (lines 286-295): the fixed
instructional text around the transcript. -/
def summary_user_prompt (transcript : String) : String :=
  "Review this therapeutic conversation and provide a brief clinical summary (3-4 sentences) covering:\n" ++
  "1. Main themes discussed\n" ++
  "2. Patient\x27s emotional state/progress\n" ++
  "3. Any insights or breakthroughs\n" ++
  "4. Suggested focus for next session\n\n" ++
  "Conversation:\n" ++ transcript ++ "\n\nClinical Summary:"

/-- The completion request issued by `generate_session_summary`
(lines 284-311): a fixed system message, the instructional user prompt with
the transcript, temperature 0.5 and `max_tokens` 300. -/
def summary_request (history : List HistEntry) : GroqRequest :=
  { model := MODEL_NAME,
    messages :=
      [{ role := "system",
         content := "You are a clinical supervisor reviewing therapy session notes." },
       { role := "user", content := summary_user_prompt (conversation_text history) }],
    temperature := (0.5 : Rat),
    max_tokens := 300 }

/-- `generate_session_summary` (line 272): guards for empty history and a
missing key, then classifies the request outcome.  The 200 branch returns the
trimmed first choice; every other status returns "Could not generate
summary."; the bare `except:` (line 318) catches both the timeout and any
other exception and returns "Summary generation failed.". -/
def generate_session_summary (history : List HistEntry) (groq_api_key : String)
    (outcome : RequestOutcome) : String :=
  if history.isEmpty then "No conversation occurred."
  else if groq_api_key = "" then "API key not configured."
  else
    match outcome with
    | .response r =>
        if r.status_code = 200 then py_strip r.first_choice_content
        else "Could not generate summary."
    | .timeout => "Summary generation failed."
    | .failure _ => "Summary generation failed."

/-- The canned THERAPIST greeting (line 464). -/
def greeting_message : String :=
  "Hello, I\x27m here to listen and support you. This is a safe space to explore whatever is on your mind. What would you like to talk about today?"

/-- The "Start New Session" handler (lines 453-467): `create_session`, then a
SYSTEM "session_start" turn, then the canned THERAPIST "greeting" turn.
Returns the updated store and the new session id. -/
def start_new_session (db : DB) (now : String) (session_type : String)
    (patient_id : String) : DB × Nat :=
  let p := create_session db now session_type patient_id
  let db1 := save_turn p.1 now p.2 "SYSTEM" ("Session started: " ++ session_type) "session_start" none
  let db2 := save_turn db1 now p.2 "THERAPIST" greeting_message "greeting" none
  (db2, p.2)

/-- Result of the send handler: the updated store and whether the completion
client (`generate_ai_response`) was invoked for a therapist reply. -/
structure SendOutcome where
  db : DB
  completion_called : Bool
  deriving DecidableEq

/-- The send-button handler (lines 532-560): if the trimmed input is nonempty,
save the PATIENT turn, call the completion client on it (modelled by the
`completion` oracle), and save the reply as a THERAPIST turn.  The handler
inspects the text for nothing else — there is no end-keyword branch.  The
`st.session_state.session_history` mirror is not modelled: it duplicates the
rows written to the store. -/
def send_button_handler (db : DB) (now : String) (session_id : Nat)
    (patient_input : String) (completion : String → String) : SendOutcome :=
  if py_strip patient_input = "" then { db := db, completion_called := false }
  else
    let db1 := save_turn db now session_id "PATIENT" (py_strip patient_input) "dialogue" none
    let reply := completion (py_strip patient_input)
    let db2 := save_turn db1 now session_id "THERAPIST" reply "dialogue" none
    { db := db2, completion_called := true }

/-- One raw turn of an import payload (spec §6: `speaker`, `message`, optional
`message_type` defaulting to "dialogue", optional `timestamp` defaulting to
the import time). -/
structure RawTurn where
  speaker : String
  message : String
  message_type : Option String
  timestamp : Option String
  deriving DecidableEq

/-- Modelled from the spec: well-formedness of one raw imported turn — the
speaker must be one of the three enumerated values (spec §3, §7). -/
def raw_turn_ok (r : RawTurn) : Bool :=
  r.speaker == "PATIENT" || r.speaker == "THERAPIST" || r.speaker == "SYSTEM"

/-- Modelled from the spec: the imported session's type label — derived from
the first turn if it is a SYSTEM "Session started: …" message, else a generic
label (spec §4.1). -/
def import_session_type (rawTurns : List RawTurn) : String :=
  match rawTurns with
  | [] => "Imported Session"
  | r :: _ =>
      if r.speaker == "SYSTEM" && chars_start_with r.message.data ("Session started: ".data) then
        ⟨r.message.data.drop ("Session started: ".data.length)⟩
      else "Imported Session"

/-- The turn row written for one raw imported turn: original timestamp where
present, import time otherwise; missing message type defaults to "dialogue". -/
def import_row (session_id : Nat) (now : String) (r : RawTurn) : TurnRow :=
  { session_id := session_id, timestamp := r.timestamp.getD now,
    speaker := r.speaker, message := r.message,
    message_type := r.message_type.getD "dialogue",
    metadata := json_dumps_meta none }

/-- Modelled from the spec: `importSession(rawTurns)` (spec §4.1) — the import
function itself is not present in `src/` (the spec describes it for the
repository's other variant).  It creates a new Session and bulk-inserts all
given turns preserving their relative order, and fails atomically with an
`ImportError` if the input is empty or malformed, leaving the store untouched. -/
def import_session (db : DB) (now : String) (rawTurns : List RawTurn) :
    Except String (DB × Nat) :=
  if rawTurns.isEmpty then .error "ImportError: empty import payload"
  else if rawTurns.all raw_turn_ok then
    let p := create_session db now (import_session_type rawTurns) "anonymous"
    let db2 := rawTurns.foldl
      (fun d r => save_turn d (r.timestamp.getD now) p.2 r.speaker r.message
        (r.message_type.getD "dialogue") none) p.1
    .ok (db2, p.2)
  else .error "ImportError: malformed import payload"

/-- The spec's words for the window (§4.2): "the last `maxTurns` turns (or
all, if fewer exist)".  For `n = 0` this is the empty list, unlike the code's
Python slice. -/
def last_window (n : Nat) (h : List HistEntry) : List HistEntry :=
  h.drop (h.length - n)

/-- The data of one `save_turn` call: the timestamp the call would generate
and the four caller-supplied fields. -/
structure TurnInput where
  now : String
  speaker : String
  message : String
  message_type : String
  metadata : Option String
  deriving DecidableEq

/-- The history row a `save_turn` call produces, as `get_session_history`
reads it back. -/
def entry_of_input (i : TurnInput) : HistEntry :=
  ⟨i.now, i.speaker, i.message, i.message_type, json_dumps_meta i.metadata⟩

/-- A three-turn history whose middle turn is a SYSTEM bookkeeping turn:
two PATIENT dialogue turns around one SYSTEM mode-change turn. -/
def hist_slots_example : List HistEntry :=
  [⟨"t1", "PATIENT", "a", "dialogue", "\x7b\x7d"⟩,
   ⟨"t2", "SYSTEM", "mode change", "mode_change", "\x7b\x7d"⟩,
   ⟨"t3", "PATIENT", "b", "dialogue", "\x7b\x7d"⟩]

/-- A two-turn well-formed import payload whose first turn is a SYSTEM
"Session started: …" message. -/
def import_example : List RawTurn :=
  [⟨"SYSTEM", "Session started: Follow-up", some "session_start", some "s0"⟩,
   ⟨"PATIENT", "hello", none, none⟩]

/-- The code's window (the `recent` of `build_conversation_context`) equals
the last-`n` window whenever `n ≥ 1`. -/
theorem recent_eq_last_window (h : List HistEntry) (n : Nat) (hn : 1 ≤ n) :
    (if h.length > n then py_slice_last h n else h) = last_window n h := by
  by_cases hl : h.length > n
  · have hn0 : n ≠ 0 := by omega
    simp [hl, py_slice_last, hn0, last_window]
  · have h0 : h.length - n = 0 := by omega
    simp [hl, last_window, h0]

/-- The last-`n` window has at most `n` elements. -/
theorem length_last_window_le (h : List HistEntry) (n : Nat) :
    (last_window n h).length ≤ n := by
  simp [last_window]
  omega

/-- The speaker-to-role pass is the same as first dropping every turn that is
neither PATIENT nor THERAPIST and then tagging the survivors. -/
theorem filterMap_context_msg_eq (l : List HistEntry) :
    l.filterMap context_msg =
      ((l.filter fun t => t.speaker == "PATIENT" || t.speaker == "THERAPIST").map
        fun t => if t.speaker = "PATIENT" then ChatMsg.mk "user" t.message
                 else ChatMsg.mk "assistant" t.message) := by
  induction l with
  | nil => rfl
  | cons t ts ih =>
      by_cases hp : t.speaker = "PATIENT"
      · simp [List.filterMap_cons, List.filter_cons, context_msg, hp, ih]
      · by_cases ht : t.speaker = "THERAPIST"
        · simp [List.filterMap_cons, List.filter_cons, context_msg, hp, ht, ih]
        · simp [List.filterMap_cons, List.filter_cons, context_msg, hp, ht, ih]

/-- Reading a session's history after `save_turn` on that session appends
exactly the saved row. -/
theorem gsh_save_turn_same (db : DB) (now : String) (sid : Nat) (sp m mt : String)
    (md : Option String) :
    get_session_history (save_turn db now sid sp m mt md) sid =
      get_session_history db sid ++ [⟨now, sp, m, mt, json_dumps_meta md⟩] := by
  simp [get_session_history, save_turn, List.filter_append, entry_of_row]

/-- A session with no stored turns reads back as the empty history. -/
theorem gsh_fresh (db : DB) (sid : Nat) (hfresh : ∀ t ∈ db.turns, t.session_id ≠ sid) :
    get_session_history db sid = [] := by
  have hf : db.turns.filter (fun t => t.session_id == sid) = [] := by
    simp only [List.filter_eq_nil_iff]
    intro t ht
    simpa using hfresh t ht
  simp [get_session_history, hf]

/-- `create_session` writes no turn rows. -/
theorem gsh_create_session (db : DB) (now st pid : String) (sid : Nat) :
    get_session_history (create_session db now st pid).1 sid = get_session_history db sid := rfl

/-- C1 counterexample: the patient message "ok //end now" contains the
end-keyword `//end` (its trimmed, lowercased text splits on `//end` into two
pieces), yet after starting a session and submitting it, the handler DID call
the completion client, the session row is unchanged with `ended_at` still
NULL, and no turn of message type "session_end" was written — the code has no
end-keyword branch at all. -/
theorem send_end_keyword_cex :
    py_contains (py_lower (py_strip "ok //end now")) "//end" = true ∧
    (send_button_handler (start_new_session emptyDB "t0" "Follow-up" "p1").1 "t1" 1
        "ok //end now" (fun _ => "mock reply")).completion_called = true ∧
    (send_button_handler (start_new_session emptyDB "t0" "Follow-up" "p1").1 "t1" 1
        "ok //end now" (fun _ => "mock reply")).db.sessions =
      [⟨1, "t0", none, "Follow-up", "p1", none⟩] ∧
    ((send_button_handler (start_new_session emptyDB "t0" "Follow-up" "p1").1 "t1" 1
        "ok //end now" (fun _ => "mock reply")).db.turns.filter
      fun t => t.message_type == "session_end") = [] := by
  decide

/-- C1 (amended): submitting any patient message with nonempty trimmed text —
end-keyword or not — is handled uniformly: the handler appends the PATIENT
turn, calls the completion client for a therapist reply, appends the THERAPIST
turn, and leaves the sessions table (hence the Active session) untouched;
there is no end-keyword detection, no SYSTEM session-end turn, no summary
request and no `end_session` call on this path. -/
theorem send_ignores_end_keywords (db : DB) (now : String) (sid : Nat) (text : String)
    (completion : String → String) (h : py_strip text ≠ "") :
    (send_button_handler db now sid text completion).completion_called = true ∧
    (send_button_handler db now sid text completion).db.sessions = db.sessions ∧
    (send_button_handler db now sid text completion).db.turns =
      db.turns ++
        [⟨sid, now, "PATIENT", py_strip text, "dialogue", json_dumps_meta none⟩,
         ⟨sid, now, "THERAPIST", completion (py_strip text), "dialogue", json_dumps_meta none⟩] := by
  simp [send_button_handler, h, save_turn, List.append_assoc]

/-- C1 witness: the amended claim at the concrete end-keyword input
"ok //end now". -/
theorem send_ignores_end_keywords_witness :
    (py_strip "ok //end now" ≠ "") ∧
    (send_button_handler emptyDB "t1" 1 "ok //end now" (fun _ => "mock reply")).completion_called = true ∧
    (send_button_handler emptyDB "t1" 1 "ok //end now" (fun _ => "mock reply")).db.sessions = emptyDB.sessions ∧
    (send_button_handler emptyDB "t1" 1 "ok //end now" (fun _ => "mock reply")).db.turns =
      emptyDB.turns ++
        [⟨1, "t1", "PATIENT", py_strip "ok //end now", "dialogue", json_dumps_meta none⟩,
         ⟨1, "t1", "THERAPIST", "mock reply", "dialogue", json_dumps_meta none⟩] :=
  ⟨by decide, send_ignores_end_keywords emptyDB "t1" 1 "ok //end now" (fun _ => "mock reply") (by decide)⟩

/-- C2 counterexample: with window size 0 and a one-turn PATIENT history the
context builder returns one message, not at most zero — Python's `h[-0:]`
slice is the whole list, so `max_turns = 0` selects everything. -/
theorem build_context_window_zero_cex :
    ¬ ((build_conversation_context [⟨"t0", "PATIENT", "hi", "dialogue", "\x7b\x7d"⟩] 0).length ≤ 0) := by
  decide

/-- C2 (amended): for every window size `n ≥ 1` the context builder returns at
most `n` messages, and its output is exactly the PATIENT/THERAPIST turns of
the last-`n` window in order — SYSTEM (and any other) speakers are dropped,
PATIENT becomes role "user" and THERAPIST role "assistant". -/
theorem build_context_bound_and_roles (h : List HistEntry) (n : Nat) (hn : 1 ≤ n) :
    (build_conversation_context h n).length ≤ n ∧
    build_conversation_context h n =
      ((last_window n h).filter fun t => t.speaker == "PATIENT" || t.speaker == "THERAPIST").map
        (fun t => if t.speaker = "PATIENT" then ChatMsg.mk "user" t.message
                  else ChatMsg.mk "assistant" t.message) := by
  have hrec : build_conversation_context h n = (last_window n h).filterMap context_msg := by
    unfold build_conversation_context
    rw [recent_eq_last_window h n hn]
  constructor
  · rw [hrec]
    exact le_trans (List.length_filterMap_le _ _) (length_last_window_le h n)
  · rw [hrec, filterMap_context_msg_eq]

/-- C2 witness: the amended claim at window size 2 on the three-turn example
history. -/
theorem build_context_bound_and_roles_witness :
    (1 : Nat) ≤ 2 ∧
    (build_conversation_context hist_slots_example 2).length ≤ 2 ∧
    build_conversation_context hist_slots_example 2 =
      ((last_window 2 hist_slots_example).filter
          fun t => t.speaker == "PATIENT" || t.speaker == "THERAPIST").map
        (fun t => if t.speaker = "PATIENT" then ChatMsg.mk "user" t.message
                  else ChatMsg.mk "assistant" t.message) :=
  ⟨by decide, build_context_bound_and_roles hist_slots_example 2 (by decide)⟩

/-- C3: the append-then-read round trip — reading a session's history after a
sequence of `save_turn` calls for that session returns the prior history
followed by exactly the appended turns in call order, and a session with no
stored turns reads back as the empty list (not an error: `get_session_history`
is total). -/
theorem list_turns_roundtrip (db : DB) (sid : Nat) (inputs : List TurnInput) :
    get_session_history
        (inputs.foldl
          (fun d i => save_turn d i.now sid i.speaker i.message i.message_type i.metadata) db)
        sid
      = get_session_history db sid ++ inputs.map entry_of_input ∧
    ((∀ t ∈ db.turns, t.session_id ≠ sid) → get_session_history db sid = []) := by
  constructor
  · induction inputs generalizing db with
    | nil => simp
    | cons i is ih =>
        rw [List.foldl_cons, ih, gsh_save_turn_same]
        simp [entry_of_input]
  · exact gsh_fresh db sid

/-- C3 witness: one appended turn on the fresh store reads back as exactly
that turn, and the fresh store's history is empty. -/
theorem list_turns_roundtrip_witness :
    get_session_history (save_turn emptyDB "t1" 1 "PATIENT" "hi" "dialogue" none) 1 =
      [⟨"t1", "PATIENT", "hi", "dialogue", "\x7b\x7d"⟩] ∧
    get_session_history emptyDB 1 = [] := by
  have h := list_turns_roundtrip emptyDB 1 [⟨"t1", "PATIENT", "hi", "dialogue", none⟩]
  refine ⟨?_, h.2 (by decide)⟩
  have h1 := h.1
  simpa [entry_of_input, json_dumps_meta, get_session_history, emptyDB] using h1

/-- C4 counterexample: "ALIEN" is none of the three enumerated speakers, yet
`save_turn` inserts the row anyway — there is no validation and no
`ValidationError` path in the code. -/
theorem save_turn_invalid_speaker_cex :
    (("ALIEN" : String) ≠ "PATIENT" ∧ ("ALIEN" : String) ≠ "THERAPIST" ∧
      ("ALIEN" : String) ≠ "SYSTEM") ∧
    (save_turn emptyDB "t0" 1 "ALIEN" "hello" "dialogue" none).turns =
      [⟨1, "t0", "ALIEN", "hello", "dialogue", "\x7b\x7d"⟩] := by
  decide

/-- C4 (amended): `save_turn` performs no speaker validation: for every
speaker string — enumerated or not — it inserts exactly one Turn row with the
given fields and touches nothing else. -/
theorem save_turn_never_validates (db : DB) (now : String) (sid : Nat)
    (speaker message mtype : String) (md : Option String) :
    (save_turn db now sid speaker message mtype md).turns =
      db.turns ++ [⟨sid, now, speaker, message, mtype, json_dumps_meta md⟩] ∧
    (save_turn db now sid speaker message mtype md).sessions = db.sessions :=
  ⟨rfl, rfl⟩

/-- C5: with an API key configured, the completion client classifies the
outcome exactly as the spec's table: HTTP 200 returns the first choice's
message text stripped of surrounding whitespace; 401 the auth-error
placeholder; 429 the rate-limited placeholder; any other status the api-error
placeholder carrying the status and body; a timeout the timeout placeholder;
any other raised exception the transport-error placeholder with its detail. -/
theorem generate_ai_response_classification (key : String) (r : HttpResponse) (d : String)
    (hkey : key ≠ "") :
    (r.status_code = 200 →
      generate_ai_response key (.response r) = py_strip r.first_choice_content) ∧
    (r.status_code = 401 → generate_ai_response key (.response r) = invalid_key_msg) ∧
    (r.status_code = 429 → generate_ai_response key (.response r) = rate_limit_msg) ∧
    (r.status_code ≠ 200 → r.status_code ≠ 401 → r.status_code ≠ 429 →
      generate_ai_response key (.response r) = api_error_msg r.status_code r.text) ∧
    generate_ai_response key RequestOutcome.timeout = timeout_msg ∧
    generate_ai_response key (.failure d) = transport_error_msg d := by
  refine ⟨fun h => ?_, fun h => ?_, fun h => ?_, fun h1 h2 h3 => ?_, ?_, ?_⟩ <;>
    simp_all [generate_ai_response]

/-- C5 witness: the classification at a concrete 401 response. -/
theorem generate_ai_response_classification_witness :
    ("k" : String) ≠ "" ∧
    generate_ai_response "k" (.response ⟨401, "", ""⟩) = invalid_key_msg :=
  ⟨by decide,
   (generate_ai_response_classification "k" ⟨401, "", ""⟩ "down" (by decide)).2.1 rfl⟩

/-- C6: starting a session appends exactly one Session row and writes the
SYSTEM "session_start" turn then the canned THERAPIST greeting, in that
order; submitting one patient message answered by the completion client then
makes `get_session_history` return exactly the 4 rows SYSTEM session_start,
THERAPIST greeting, PATIENT message, THERAPIST reply. -/
theorem start_then_send_four_rows (db : DB) (t0 t1 stype pid msg : String)
    (completion : String → String)
    (hfresh : ∀ t ∈ db.turns, t.session_id ≠ db.nextSessionId)
    (hmsg : py_strip msg ≠ "") :
    (start_new_session db t0 stype pid).2 = db.nextSessionId ∧
    (start_new_session db t0 stype pid).1.sessions =
      db.sessions ++ [⟨db.nextSessionId, t0, none, stype, pid, none⟩] ∧
    get_session_history (start_new_session db t0 stype pid).1 db.nextSessionId =
      [⟨t0, "SYSTEM", "Session started: " ++ stype, "session_start", json_dumps_meta none⟩,
       ⟨t0, "THERAPIST", greeting_message, "greeting", json_dumps_meta none⟩] ∧
    get_session_history
        (send_button_handler (start_new_session db t0 stype pid).1 t1 db.nextSessionId msg
          completion).db db.nextSessionId =
      [⟨t0, "SYSTEM", "Session started: " ++ stype, "session_start", json_dumps_meta none⟩,
       ⟨t0, "THERAPIST", greeting_message, "greeting", json_dumps_meta none⟩,
       ⟨t1, "PATIENT", py_strip msg, "dialogue", json_dumps_meta none⟩,
       ⟨t1, "THERAPIST", completion (py_strip msg), "dialogue", json_dumps_meta none⟩] := by
  have hgsh0 : get_session_history db db.nextSessionId = [] :=
    gsh_fresh db db.nextSessionId hfresh
  have hstart : get_session_history (start_new_session db t0 stype pid).1 db.nextSessionId =
      [⟨t0, "SYSTEM", "Session started: " ++ stype, "session_start", json_dumps_meta none⟩,
       ⟨t0, "THERAPIST", greeting_message, "greeting", json_dumps_meta none⟩] := by
    show get_session_history
        (save_turn (save_turn (create_session db t0 stype pid).1 t0 db.nextSessionId "SYSTEM"
            ("Session started: " ++ stype) "session_start" none) t0 db.nextSessionId "THERAPIST"
          greeting_message "greeting" none) db.nextSessionId = _
    rw [gsh_save_turn_same, gsh_save_turn_same, gsh_create_session, hgsh0]
    rfl
  have hsend : send_button_handler (start_new_session db t0 stype pid).1 t1 db.nextSessionId
      msg completion =
      { db := save_turn
          (save_turn (start_new_session db t0 stype pid).1 t1 db.nextSessionId "PATIENT"
            (py_strip msg) "dialogue" none)
          t1 db.nextSessionId "THERAPIST" (completion (py_strip msg)) "dialogue" none,
        completion_called := true } := by
    simp [send_button_handler, hmsg]
  refine ⟨rfl, rfl, hstart, ?_⟩
  rw [hsend]
  show get_session_history (save_turn (save_turn _ _ _ _ _ _ _) _ _ _ _ _ _) _ = _
  rw [gsh_save_turn_same, gsh_save_turn_same, hstart]
  rfl

/-- C6 witness: the scenario `start("Follow-up", "p1")` then submit
"I feel anxious" with the mocked completion "Tell me more", on the fresh
store. -/
theorem start_then_send_four_rows_witness :
    (∀ t ∈ emptyDB.turns, t.session_id ≠ emptyDB.nextSessionId) ∧
    py_strip "I feel anxious" ≠ "" ∧
    get_session_history
        (send_button_handler (start_new_session emptyDB "t0" "Follow-up" "p1").1 "t1"
          emptyDB.nextSessionId "I feel anxious" (fun _ => "Tell me more")).db
        emptyDB.nextSessionId =
      [⟨"t0", "SYSTEM", "Session started: " ++ "Follow-up", "session_start", json_dumps_meta none⟩,
       ⟨"t0", "THERAPIST", greeting_message, "greeting", json_dumps_meta none⟩,
       ⟨"t1", "PATIENT", py_strip "I feel anxious", "dialogue", json_dumps_meta none⟩,
       ⟨"t1", "THERAPIST", "Tell me more", "dialogue", json_dumps_meta none⟩] :=
  ⟨by decide, by decide,
   (start_then_send_four_rows emptyDB "t0" "t1" "Follow-up" "p1" "I feel anxious"
      (fun _ => "Tell me more") (by decide) (by decide)).2.2.2⟩

/-- Bulk-inserting raw turns appends exactly their rows, in order, and
touches nothing else in the store. -/
theorem foldl_import_rows (sid : Nat) (now : String) (raws : List RawTurn) :
    ∀ d : DB,
      raws.foldl (fun d r => save_turn d (r.timestamp.getD now) sid r.speaker r.message
        (r.message_type.getD "dialogue") none) d =
      { d with turns := d.turns ++ raws.map (import_row sid now) } := by
  induction raws with
  | nil => intro d; simp
  | cons r rs ih =>
      intro d
      rw [List.foldl_cons, ih]
      simp [save_turn, import_row, List.append_assoc]

/-- C7: for a nonempty, well-formed raw turn list, `import_session` creates
exactly one new Session row and appends exactly one Turn row per raw turn,
preserving their relative order; for an empty or malformed input it returns
an ImportError and produces no store at all (atomic failure). -/
theorem import_session_one_session_k_turns (db : DB) (now : String) (raws : List RawTurn) :
    (raws ≠ [] → raws.all raw_turn_ok = true →
      import_session db now raws =
        Except.ok ({ sessions := db.sessions ++
                       [⟨db.nextSessionId, now, none, import_session_type raws, "anonymous", none⟩],
                     turns := db.turns ++ raws.map (import_row db.nextSessionId now),
                     nextSessionId := db.nextSessionId + 1 }, db.nextSessionId)) ∧
    ((raws = [] ∨ raws.all raw_turn_ok = false) →
      ∃ e, import_session db now raws = Except.error e) := by
  constructor
  · intro hne hok
    have hemp : raws.isEmpty = false := by
      cases raws with
      | nil => exact absurd rfl hne
      | cons a as => rfl
    simp only [import_session, hemp, hok, Bool.false_eq_true, if_false, if_true]
    rw [foldl_import_rows]
    simp [create_session]
  · intro hc
    by_cases hemp : raws.isEmpty
    · exact ⟨"ImportError: empty import payload", by simp [import_session, hemp]⟩
    · rcases hc with h | h
      · subst h; simp at hemp
      · exact ⟨"ImportError: malformed import payload", by simp [import_session, hemp, h]⟩

/-- C7 witness: a two-turn well-formed payload imports as one new session and
two turn rows in order; the empty payload fails with an ImportError. -/
theorem import_session_one_session_k_turns_witness :
    import_session emptyDB "t9" import_example =
      Except.ok (⟨[⟨1, "t9", none, "Follow-up", "anonymous", none⟩],
                  [⟨1, "s0", "SYSTEM", "Session started: Follow-up", "session_start", "\x7b\x7d"⟩,
                   ⟨1, "t9", "PATIENT", "hello", "dialogue", "\x7b\x7d"⟩], 2⟩, 1) ∧
    (∃ e, import_session emptyDB "t9" [] = Except.error e) := by
  constructor
  · rw [(import_session_one_session_k_turns emptyDB "t9" import_example).1 (by decide) (by decide)]
    rfl
  · exact (import_session_one_session_k_turns emptyDB "t9" []).2 (Or.inl rfl)

/-- C8 counterexample: there is no SINGLE fixed fallback string — a non-200
response yields "Could not generate summary." while a timeout yields the
different string "Summary generation failed.". -/
theorem summary_two_fallbacks_cex :
    generate_session_summary [⟨"t1", "PATIENT", "hi", "dialogue", "\x7b\x7d"⟩] "key"
        (.response ⟨500, "", "oops"⟩) = "Could not generate summary." ∧
    generate_session_summary [⟨"t1", "PATIENT", "hi", "dialogue", "\x7b\x7d"⟩] "key"
        RequestOutcome.timeout = "Summary generation failed." ∧
    ("Could not generate summary." : String) ≠ "Summary generation failed." := by
  decide

/-- C8 (amended): for a nonempty history and configured key, summary
generation requests a completion whose messages are the fixed system prompt
plus the transcript of exactly the PATIENT/THERAPIST turns as
"SPEAKER: message" lines, with temperature 0.5 and token budget 300 (smaller
than the 1000 of a therapist reply); it returns the stripped completion text
on 200, the fixed string "Could not generate summary." on any other status,
and the different fixed string "Summary generation failed." on a timeout or
any other raised exception. -/
theorem generate_session_summary_spec (history : List HistEntry) (key : String)
    (r : HttpResponse) (d : String) (hhist : history ≠ []) (hkey : key ≠ "") :
    (summary_request history).temperature = (0.5 : Rat) ∧
    (summary_request history).max_tokens = 300 ∧
    (summary_request history).max_tokens < ai_response_max_tokens ∧
    (summary_request history).messages =
      [⟨"system", "You are a clinical supervisor reviewing therapy session notes."⟩,
       ⟨"user", summary_user_prompt (String.intercalate "\n"
          ((history.filter fun t => t.speaker == "PATIENT" || t.speaker == "THERAPIST").map
            fun t => t.speaker ++ ": " ++ t.message))⟩] ∧
    (r.status_code = 200 →
      generate_session_summary history key (.response r) = py_strip r.first_choice_content) ∧
    (r.status_code ≠ 200 →
      generate_session_summary history key (.response r) = "Could not generate summary.") ∧
    generate_session_summary history key RequestOutcome.timeout = "Summary generation failed." ∧
    generate_session_summary history key (.failure d) = "Summary generation failed." := by
  have hemp : history.isEmpty = false := by
    cases history with
    | nil => exact absurd rfl hhist
    | cons a as => rfl
  refine ⟨rfl, rfl, by norm_num [summary_request, ai_response_max_tokens], rfl,
    fun h => ?_, fun h => ?_, ?_, ?_⟩ <;>
    simp_all [generate_session_summary]

/-- C8 witness: the amended claim at a concrete one-turn history. -/
theorem generate_session_summary_spec_witness :
    ([⟨"t1", "PATIENT", "hi", "dialogue", "\x7b\x7d"⟩] : List HistEntry) ≠ [] ∧
    ("k" : String) ≠ "" ∧
    generate_session_summary [⟨"t1", "PATIENT", "hi", "dialogue", "\x7b\x7d"⟩] "k"
      RequestOutcome.timeout = "Summary generation failed." ∧
    (summary_request [⟨"t1", "PATIENT", "hi", "dialogue", "\x7b\x7d"⟩]).temperature = (0.5 : Rat) :=
  ⟨by decide, by decide,
   (generate_session_summary_spec [⟨"t1", "PATIENT", "hi", "dialogue", "\x7b\x7d"⟩] "k"
      ⟨200, "", ""⟩ "boom" (by decide) (by decide)).2.2.2.2.2.2.1,
   (generate_session_summary_spec [⟨"t1", "PATIENT", "hi", "dialogue", "\x7b\x7d"⟩] "k"
      ⟨200, "", ""⟩ "boom" (by decide) (by decide)).1⟩

/-- C9 counterexample: at window size 0 the output is NOT "last 0 turns, then
filter" — the spec-side window of 0 turns gives no messages, the code gives
the whole history's dialogue. -/
theorem build_context_zero_window_filter_cex :
    build_conversation_context [⟨"t0", "PATIENT", "hi", "dialogue", "\x7b\x7d"⟩] 0 ≠
      (last_window 0 [⟨"t0", "PATIENT", "hi", "dialogue", "\x7b\x7d"⟩]).filterMap context_msg := by
  decide

/-- C9 (amended): for every window size `maxTurns ≥ 1` the output equals
window-first-then-filter: take the last `maxTurns` turns of the full history,
then keep only PATIENT/THERAPIST turns.  Consequently SYSTEM turns inside the
window consume slots: the three-turn example history holds 2 dialogue turns,
yet at window size 2 the output is the single message for the newest dialogue
turn, and the older dialogue turn outside the window is not pulled in to
compensate. -/
theorem build_context_window_then_filter :
    (∀ (h : List HistEntry) (n : Nat), 1 ≤ n →
      build_conversation_context h n = (last_window n h).filterMap context_msg) ∧
    (2 ≤ (hist_slots_example.filter
        fun t => t.speaker == "PATIENT" || t.speaker == "THERAPIST").length ∧
     build_conversation_context hist_slots_example 2 = [⟨"user", "b"⟩]) := by
  constructor
  · intro h n hn
    unfold build_conversation_context
    rw [recent_eq_last_window h n hn]
  · exact ⟨by decide, by decide⟩

/-- C9 witness: the window-then-filter equation at window size 2 on the
example history. -/
theorem build_context_window_then_filter_witness :
    (1 : Nat) ≤ 2 ∧
    build_conversation_context hist_slots_example 2 =
      (last_window 2 hist_slots_example).filterMap context_msg :=
  ⟨by decide, build_context_window_then_filter.1 hist_slots_example 2 (by decide)⟩

/-- C10: `end_session` on a session id that no Session row carries is a
silent no-op — the function is total (no error is signalled) and the store is
returned unchanged, every existing Session row untouched. -/
theorem end_session_missing_id_noop (db : DB) (now : String) (sid : Nat) (summary : String)
    (h : ∀ s ∈ db.sessions, s.id ≠ sid) :
    end_session db now sid summary = db := by
  have hmap : ∀ (l : List SessionRow), (∀ s ∈ l, s.id ≠ sid) →
      (l.map fun s =>
        if s.id = sid then { s with ended_at := some now, summary := some summary } else s) = l := by
    intro l
    induction l with
    | nil => intro _; rfl
    | cons a as ih =>
        intro hl
        simp only [List.map_cons]
        rw [if_neg (hl a (List.mem_cons_self a as)),
          ih (fun s hs => hl s (List.mem_cons_of_mem a hs))]
  unfold end_session
  rw [hmap db.sessions h]

/-- C10 witness: ending session id 2 on a store whose only session has id 1
changes nothing. -/
theorem end_session_missing_id_noop_witness :
    (∀ s ∈ (⟨[⟨1, "t0", none, "Follow-up", "p1", none⟩], [], 2⟩ : DB).sessions, s.id ≠ 2) ∧
    end_session ⟨[⟨1, "t0", none, "Follow-up", "p1", none⟩], [], 2⟩ "t5" 2 "wrap-up" =
      ⟨[⟨1, "t0", none, "Follow-up", "p1", none⟩], [], 2⟩ :=
  ⟨by decide, end_session_missing_id_noop _ "t5" 2 "wrap-up" (by decide)⟩

end Mnemosyne
